import Mathlib

/-!
Shallow embedding of `redash/query_runner/mssql_all_datasources.py`
(the `SqlServerAllDatasources` query runner).

The Python module fans a single user query out over a dynamically
discovered list of SQL Server databases.  The embedding below models:

* `types_map` — the literal driver-type-code dictionary (lines 23-31),
  together with `types_map.get(code, None)` as used at line 186;
* `run_query_on_datasource` — the single-target executor (lines 162-215),
  parametrised by a `DriverOutcome` describing what the pymssql driver
  does for that call (connect failure, query failure, keyboard
  interrupt, unexpected exception, empty cursor description, success);
* `run_query` — the fan-out aggregator (lines 139-160), parametrised by
  an `Env` giving the driver behaviour of the discovery query and of the
  user query on every target database;
* `_get_tables` — the schema introspector fold (lines 109-137),
  parametrised by the introspection rows.

Python exceptions are modelled with `Except`; the Python value `None`
is `Option.none`.  `json.dumps`/`json.loads` round-trips are modelled
structurally (the serialized form is the structured value itself), and
`json.loads(None)` is a raised `TypeError`, exactly as in Python 2.
-/

namespace MssqlAllDatasources

/-- Portable column type tags, the `TYPE_STRING` / `TYPE_BOOLEAN` /
`TYPE_FLOAT` / `TYPE_DATETIME` constants of `redash.query_runner` that
appear as values of `types_map`.  The spec's fifth portable type,
`UNKNOWN`, is the Python `None` that `types_map.get(i[1], None)`
returns for an unlisted code; it is modelled as `Option.none`. -/
inductive SqlType where
  | STRING
  | BOOLEAN
  | FLOAT
  | DATETIME
  deriving DecidableEq, Repr

/-- The literal dictionary `types_map` of the source (lines 23-31),
as an association list: 1 maps to string, 2 to boolean, 3 to float
(deliberately, although the code comment says it is supposed to be an
integer), 4 to datetime, 5 to float. -/
def types_map : List (Int × SqlType) :=
  [(1, .STRING), (2, .BOOLEAN), (3, .FLOAT), (4, .DATETIME), (5, .FLOAT)]

/-- The expression `types_map.get(code, None)` from line 186:
dictionary lookup with Python default `None` (the spec's `UNKNOWN`). -/
def typesMapGet (code : Int) : Option SqlType :=
  types_map.lookup code

/-- A row, as the Python per-row dictionary from column name to a
scalar value (values modelled as strings; the loop in `run_query` only
ever reads the key `datasource` and concatenates rows wholesale). -/
abbrev Row := List (String × String)

/-- A column descriptor as produced by `fetch_columns` at line 186:
a name and the portable type (or `none`, for an unrecognized code). -/
structure Column where
  name : String
  ctype : Option SqlType
  deriving DecidableEq, Repr

/-- The dictionary `{'columns': columns, 'rows': rows}` built at
line 189 (its JSON serialization is modelled structurally). -/
structure ResultSet where
  columns : List Column
  rows : List Row
  deriving DecidableEq, Repr

/-- Python exceptions that the embedded code can raise. -/
inductive PyExc where
  | unboundLocal (varName : String)
  | typeError
  | keyError (k : String)
  | appError (msg : String)
  | reraised (msg : String)
  deriving DecidableEq, Repr

/-- The `args` of a raised `pymssql.Error`.  Query errors carry
`args = (code, message)`, so `args[1]` is the message; connection
errors carry `args = ((code, message),)`, a one-element tuple, so
`args[1]` raises `IndexError` and `args[0][1]` is the message. -/
inductive MssqlErrorArgs where
  | queryArgs (code : Int) (msg : String)
  | connArgs (code : Int) (msg : String)
  deriving DecidableEq, Repr

/-- The handler at lines 197-203: `error = e.args[1]`, and on
`IndexError` (one-element `args`) `error = e.args[0][1]`. -/
def extractPymssqlError : MssqlErrorArgs → String
  | .queryArgs _ msg => msg
  | .connArgs _ msg => msg

/-- What the pymssql driver does for one single-target call: this is
the input of the embedded `run_query_on_datasource`.

* `connectFail a` — `pymssql.connect` raises `pymssql.Error` with
  args `a` (the local `connection` is never assigned);
* `execFail a` — the connection is established, and
  `cursor.execute`/`fetchall` raises `pymssql.Error` with args `a`;
* `cancelled` — a `KeyboardInterrupt` arrives while a query is in
  flight (after the connection was established);
* `unexpected msg` — some other exception is raised after the
  connection was established (re-raised by the last handler);
* `noDescription` — the query runs but `cursor.description` is `None`;
* `success cols rows` — the query runs and yields the given column
  descriptors (already passed through `fetch_columns` with
  `types_map.get`) and fetched rows. -/
inductive DriverOutcome where
  | connectFail (a : MssqlErrorArgs)
  | execFail (a : MssqlErrorArgs)
  | cancelled
  | unexpected (msg : String)
  | noDescription
  | success (cols : List Column) (rows : List Row)
  deriving DecidableEq, Repr

instance {ε α : Type} [DecidableEq ε] [DecidableEq α] : DecidableEq (Except ε α) := fun x y =>
  match x, y with
  | .error a, .error b =>
      if h : a = b then isTrue (congrArg Except.error h)
      else isFalse (fun hc => h (Except.error.inj hc))
  | .ok a, .ok b =>
      if h : a = b then isTrue (congrArg Except.ok h)
      else isFalse (fun hc => h (Except.ok.inj hc))
  | .error _, .ok _ => isFalse (fun hc => Except.noConfusion hc)
  | .ok _, .error _ => isFalse (fun hc => Except.noConfusion hc)

/-- The observable outcome of one call of `run_query_on_datasource`:
its return value or raised exception, plus whether a connection was
opened by `pymssql.connect` and whether `connection.close()` ran. -/
structure ExecResult where
  ret : Except PyExc (Option ResultSet × Option String)
  opened : Bool
  closed : Bool
  deriving DecidableEq, Repr

/-- Embedding of `run_query_on_datasource` (lines 162-215), by cases on
the driver behaviour.

* `connectFail`: the `except pymssql.Error` handler extracts the
  message, but the `finally` clause then evaluates `if connection:`
  with the local `connection` never assigned (`connect` raised before
  the assignment completed), which raises `UnboundLocalError`; the
  pending normal return is replaced by that exception.  No connection
  was opened, so none is closed.
* `execFail`: the handler extracts the message, `json_data = None`,
  and `finally` closes the established connection: the call returns
  `(None, message)`.
* `cancelled`: `connection.cancel()` runs, the error becomes the fixed
  string, and `finally` closes the connection.
* `unexpected`: the bare `except Exception` re-raises with the original
  traceback; `finally` still closes the connection.
* `noDescription`: returns `(None, "No data was returned.")`.
* `success`: returns the serialized result set and no error. -/
def run_query_on_datasource : DriverOutcome → ExecResult
  | .connectFail _ =>
      { ret := .error (.unboundLocal "connection"), opened := false, closed := false }
  | .execFail a =>
      { ret := .ok (none, some (extractPymssqlError a)), opened := true, closed := true }
  | .cancelled =>
      { ret := .ok (none, some "Query cancelled by user."), opened := true, closed := true }
  | .unexpected msg =>
      { ret := .error (.reraised msg), opened := true, closed := true }
  | .noDescription =>
      { ret := .ok (none, some "No data was returned."), opened := true, closed := true }
  | .success cols rows =>
      { ret := .ok (some { columns := cols, rows := rows }, none), opened := true, closed := true }

/-- The environment of one `run_query` invocation: the driver behaviour
of the discovery query run against `master_db`, and of the user query
run against each named target database. -/
structure Env where
  discovery : DriverOutcome
  target : String → DriverOutcome

/-- The local variables of the fan-out loop of `run_query`
(lines 146-158): the row accumulator `total_rows`, the local `results`
(`none` while still unbound), the local `error` (last assigned value),
plus the exceptions caught and logged by the `except` clause and the
target databases actually passed to `run_query_on_datasource`. -/
structure LoopState where
  total_rows : List Row
  results : Option ResultSet
  error : Option String
  caught : List PyExc
  queried : List String
  deriving DecidableEq, Repr

/-- One iteration of the fan-out loop (lines 148-155) on discovery row
`d`.  `d['datasource']` raises `KeyError` when the key is absent
(caught and logged, nothing else changes).  Otherwise
`run_query_on_datasource` is called: if it raises, the exception is
caught and logged and `error` is not reassigned; if it returns, the
tuple unpacking assigns `error` first, then `json.loads(results_json)`
either raises `TypeError` (when `results_json` is `None`; caught and
logged) or rebinds `results` and extends `total_rows`. -/
def loopStep (env : Env) (st : LoopState) (d : Row) : LoopState :=
  match d.lookup "datasource" with
  | none => { st with caught := st.caught ++ [.keyError "datasource"] }
  | some ds =>
      let st := { st with queried := st.queried ++ [ds] }
      match (run_query_on_datasource (env.target ds)).ret with
      | .error e => { st with caught := st.caught ++ [e] }
      | .ok (json_data, err) =>
          match json_data with
          | none => { st with error := err, caught := st.caught ++ [.typeError] }
          | some rs =>
              { st with error := err, results := some rs,
                        total_rows := st.total_rows ++ rs.rows }

/-- The fan-out loop over the discovery rows, in order. -/
def loopRun (env : Env) (st : LoopState) : List Row → LoopState
  | [] => st
  | d :: rest => loopRun env (loopStep env st d) rest

/-- Loop state at entry of the loop: `total_rows = []`, `results`
unbound, `error = None` (assigned by the discovery unpacking on the
path that reaches the loop). -/
def initState : LoopState :=
  { total_rows := [], results := none, error := none, caught := [], queried := [] }

/-- The observable outcome of `run_query`: the returned
`(results, error)` pair or the raised exception, the targets queried
inside the loop, and the exceptions caught and logged by the loop. -/
structure RunQueryResult where
  ret : Except PyExc (ResultSet × Option String)
  queried : List String
  caught : List PyExc
  deriving DecidableEq, Repr

/-- Embedding of `run_query` (lines 139-160).  The discovery call is
outside any local `try`, so an exception from it propagates.  If the
discovery call returns a non-`None` error, `run_query` raises
`Exception("Failed retrieving datasources.")`.  Otherwise the returned
JSON is parsed (`json.loads(None)` would raise `TypeError`; unreachable
here since a `None` payload always comes with a non-`None` error), the
loop runs over the discovery rows, and after the loop
`results['rows'] = total_rows` raises `UnboundLocalError` when no loop
iteration ever bound `results`; otherwise the final result keeps the
last-bound `results` (hence its columns) with its rows replaced by the
accumulator, returned together with the last-assigned `error`. -/
def run_query (env : Env) : RunQueryResult :=
  match (run_query_on_datasource env.discovery).ret with
  | .error e => { ret := .error e, queried := [], caught := [] }
  | .ok (djson, derr) =>
      match derr with
      | some _ =>
          { ret := .error (.appError "Failed retrieving datasources."),
            queried := [], caught := [] }
      | none =>
          match djson with
          | none => { ret := .error .typeError, queried := [], caught := [] }
          | some dres =>
              let fin := loopRun env initState dres.rows
              match fin.results with
              | none =>
                  { ret := .error (.unboundLocal "results"),
                    queried := fin.queried, caught := fin.caught }
              | some rs =>
                  { ret := .ok ({ columns := rs.columns, rows := fin.total_rows },
                                fin.error),
                    queried := fin.queried, caught := fin.caught }

/-- One row of the INFORMATION_SCHEMA.COLUMNS introspection query of
`_get_tables` (line 110): `(table_schema, table_name, column_name)`. -/
structure IntroRow where
  table_schema : String
  table_name : String
  column_name : String
  deriving DecidableEq, Repr

/-- One value of the `schema` dictionary of `_get_tables`:
`{'name': table_name, 'columns': [...]}` (line 132). -/
structure TableEntry where
  name : String
  columns : List String
  deriving DecidableEq, Repr

/-- The qualified-name computation of `_get_tables` (lines 127-130):
`'{}.{}'.format(table_schema, table_name)` when `table_schema` differs
from the configured `db`, the bare `table_name` otherwise. -/
def qualified_name (db ns tbl : String) : String :=
  if ns ≠ db then ns ++ "." ++ tbl else tbl

/-- Append a column name to the entry stored under key `tn` of the
schema dictionary (line 134), leaving other entries unchanged. -/
def schemaAppendColumn : List (String × TableEntry) → String → String → List (String × TableEntry)
  | [], _, _ => []
  | (k, e) :: rest, tn, col =>
      if k = tn then (k, { e with columns := e.columns ++ [col] }) :: rest
      else (k, e) :: schemaAppendColumn rest tn col

/-- One iteration of the row loop of `_get_tables` (lines 126-134):
compute the qualified table name, insert a fresh entry on first sight
(lines 131-132), then append the row's column name (line 134).  The
Python dictionary is modelled as an insertion-ordered association
list. -/
def get_tables_step (db : String) (schema : List (String × TableEntry)) (r : IntroRow) :
    List (String × TableEntry) :=
  let tn := qualified_name db r.table_schema r.table_name
  let schema :=
    if (schema.lookup tn).isNone then schema ++ [(tn, { name := tn, columns := [] })]
    else schema
  schemaAppendColumn schema tn r.column_name

/-- The row loop of `_get_tables`, folding the introspection rows into
the schema dictionary in row order. -/
def get_tables_fold (db : String) (schema : List (String × TableEntry)) :
    List IntroRow → List (String × TableEntry)
  | [] => schema
  | r :: rest => get_tables_fold db (get_tables_step db schema r) rest

/-- Embedding of `_get_tables` (lines 109-137) applied to a fresh empty
`schema` dictionary, parametrised by the rows the introspection query
returns: fold the rows, then `return schema.values()` (line 137). -/
def get_tables (db : String) (rows : List IntroRow) : List TableEntry :=
  (get_tables_fold db [] rows).map Prod.snd

/-! Per-discovery-row observations used to characterise the fan-out
loop.  Each one performs exactly the case analysis of `loopStep`. -/

/-- The rows that discovery row `d` contributes to `total_rows`: the
rows of the returned result set when the single-target call returns
one, nothing when the key is missing, the call raises, or the call
returns a `None` payload. -/
def contribRows (env : Env) (d : Row) : List Row :=
  match d.lookup "datasource" with
  | none => []
  | some ds =>
      match (run_query_on_datasource (env.target ds)).ret with
      | .ok (some rs, _) => rs.rows
      | _ => []

/-- The result set that discovery row `d` binds into the shared local
`results`, when its single-target call returns one. -/
def parsedResult (env : Env) (d : Row) : Option ResultSet :=
  match d.lookup "datasource" with
  | none => none
  | some ds =>
      match (run_query_on_datasource (env.target ds)).ret with
      | .ok (some rs, _) => some rs
      | _ => none

/-- The value that discovery row `d` assigns to the shared local
`error`: `some err` when the single-target call returns (the tuple
unpacking assigns `error` even when `json.loads` then raises), `none`
when the key is missing or the call itself raises. -/
def returnedErr (env : Env) (d : Row) : Option (Option String) :=
  match d.lookup "datasource" with
  | none => none
  | some ds =>
      match (run_query_on_datasource (env.target ds)).ret with
      | .ok (_, err) => some err
      | .error _ => none

/-- The exception that the loop's `except` clause catches and logs for
discovery row `d`, if any. -/
def caughtExc (env : Env) (d : Row) : Option PyExc :=
  match d.lookup "datasource" with
  | none => some (.keyError "datasource")
  | some ds =>
      match (run_query_on_datasource (env.target ds)).ret with
      | .error e => some e
      | .ok (none, _) => some .typeError
      | .ok (some _, _) => none

/-- The target database that discovery row `d` causes to be queried:
its `datasource` value, when present. -/
def queriedDb (d : Row) : Option String :=
  d.lookup "datasource"

/-- Last-write-wins update over a list of written values with a default
for the empty list: the semantics of repeatedly rebinding a local. -/
def lastAssign {α : Type} (l : List α) (dflt : α) : α :=
  match l.getLast? with
  | some x => x
  | none => dflt

theorem lastAssign_cons {α : Type} (x : α) (l : List α) (d : α) :
    lastAssign (x :: l) d = lastAssign l x := by
  cases l with
  | nil => rfl
  | cons y t =>
      simp only [lastAssign, List.getLast?_cons_cons]
      cases h : (y :: t).getLast? with
      | some z => rfl
      | none => simp at h

/-- Last-write-wins rebinding of an optional local: the last written
value when any write happened, the previous binding otherwise. -/
def lastWrite {α : Type} (l : List α) (dflt : Option α) : Option α :=
  match l.getLast? with
  | some x => some x
  | none => dflt

theorem lastWrite_cons {α : Type} (x : α) (l : List α) (d : Option α) :
    lastWrite (x :: l) d = lastWrite l (some x) := by
  cases l with
  | nil => rfl
  | cons y t =>
      simp only [lastWrite, List.getLast?_cons_cons]
      cases h : (y :: t).getLast? with
      | some z => rfl
      | none => simp at h

/-- Characterisation of the fan-out loop: the accumulator concatenates
each row's contribution in discovery order, `results` and `error` are
last-write-wins over the per-row written values, and the caught-and
logged exceptions and queried targets are collected in order. -/
theorem loopRun_spec (env : Env) (ds : List Row) (st : LoopState) :
    loopRun env st ds =
      { total_rows := st.total_rows ++ (ds.map (contribRows env)).flatten,
        results := lastWrite (ds.filterMap (parsedResult env)) st.results,
        error := lastAssign (ds.filterMap (returnedErr env)) st.error,
        caught := st.caught ++ ds.filterMap (caughtExc env),
        queried := st.queried ++ ds.filterMap queriedDb } := by
  induction ds generalizing st with
  | nil => simp [loopRun, lastWrite, lastAssign]
  | cons d rest ih =>
      show loopRun env (loopStep env st d) rest = _
      rw [ih]
      cases hld : d.lookup "datasource" with
      | none =>
          simp [loopStep, hld, contribRows, parsedResult, returnedErr, caughtExc,
                queriedDb, List.filterMap_cons, lastWrite, lastAssign]
      | some dsname =>
          cases hex : (run_query_on_datasource (env.target dsname)).ret with
          | error e =>
              simp [loopStep, hld, hex, contribRows, parsedResult, returnedErr,
                    caughtExc, queriedDb, List.filterMap_cons, lastWrite, lastAssign]
          | ok pr =>
              obtain ⟨json_data, err⟩ := pr
              cases json_data with
              | none =>
                  simp [loopStep, hld, hex, contribRows, parsedResult, returnedErr,
                        caughtExc, queriedDb, List.filterMap_cons, lastAssign_cons,
                        lastWrite]
              | some rs =>
                  simp [loopStep, hld, hex, contribRows, parsedResult, returnedErr,
                        caughtExc, queriedDb, List.filterMap_cons, lastAssign_cons,
                        lastWrite_cons]

/-! Claim theorems. -/

/-- C5: the type mapper `types_map.get(code, None)` is a pure total
function from integer driver type codes to the portable type enum:
code 1 maps to STRING, 2 to BOOLEAN, 3 to FLOAT, 4 to DATETIME, 5 to
FLOAT, and every other integer code maps to the default (the spec's
UNKNOWN, the Python `None`), never an error. -/
theorem types_map_pure_total :
    typesMapGet 1 = some SqlType.STRING ∧
    typesMapGet 2 = some SqlType.BOOLEAN ∧
    typesMapGet 3 = some SqlType.FLOAT ∧
    typesMapGet 4 = some SqlType.DATETIME ∧
    typesMapGet 5 = some SqlType.FLOAT ∧
    ∀ c : Int, c ≠ 1 → c ≠ 2 → c ≠ 3 → c ≠ 4 → c ≠ 5 → typesMapGet c = none := by
  refine ⟨rfl, rfl, rfl, rfl, rfl, ?_⟩
  intro c h1 h2 h3 h4 h5
  have e1 : (c == 1) = false := beq_eq_false_iff_ne.mpr h1
  have e2 : (c == 2) = false := beq_eq_false_iff_ne.mpr h2
  have e3 : (c == 3) = false := beq_eq_false_iff_ne.mpr h3
  have e4 : (c == 4) = false := beq_eq_false_iff_ne.mpr h4
  have e5 : (c == 5) = false := beq_eq_false_iff_ne.mpr h5
  simp [typesMapGet, types_map, List.lookup, e1, e2, e3, e4, e5]

/-- Witness for C5: the unrecognized code 7 maps to the default. -/
theorem types_map_pure_total_witness : typesMapGet 7 = none :=
  types_map_pure_total.2.2.2.2.2 7 (by decide) (by decide) (by decide)
    (by decide) (by decide)

/-- C6: on every exit path of a single-target execution on which a
connection was opened, the connection is closed before
`run_query_on_datasource` returns or propagates (on the
connection-establishment failure path no connection is ever opened,
so there is nothing to release there). -/
theorem connection_released_on_every_path (b : DriverOutcome)
    (h : (run_query_on_datasource b).opened = true) :
    (run_query_on_datasource b).closed = true := by
  cases b <;> simp_all [run_query_on_datasource]

/-- Witness for C6: the cancellation path opens and closes the
connection. -/
theorem connection_released_on_every_path_witness :
    (run_query_on_datasource DriverOutcome.cancelled).closed = true :=
  connection_released_on_every_path DriverOutcome.cancelled rfl

/-- C7 evidence: when `pymssql.connect` raises a connection error, the
`except pymssql.Error` handler does extract the driver message from
`args[0][1]` (second conjunct), but `run_query_on_datasource` does not
return normally with that message: the `finally` clause reads the local
`connection`, which was never assigned because `connect` raised, and
the call propagates an `UnboundLocalError` instead (first conjunct). -/
theorem connect_failure_raises_unbound_local :
    (run_query_on_datasource
        (DriverOutcome.connectFail
          (MssqlErrorArgs.connArgs 20009
            "Unable to connect: Adaptive Server is unavailable"))).ret
      = Except.error (PyExc.unboundLocal "connection") ∧
    extractPymssqlError
        (MssqlErrorArgs.connArgs 20009
          "Unable to connect: Adaptive Server is unavailable")
      = "Unable to connect: Adaptive Server is unavailable" :=
  ⟨rfl, rfl⟩

/-- C8: the qualified-name rule of the schema introspector: the bare
table name when the namespace equals the configured default database,
and namespace.table otherwise; in particular with default database
Sales, (Sales, Orders) yields Orders and (dbo2, Orders) yields
dbo2.Orders. -/
theorem qualified_name_rule :
    (∀ db ns tbl : String,
        qualified_name db ns tbl = if ns = db then tbl else ns ++ "." ++ tbl) ∧
    qualified_name "Sales" "Sales" "Orders" = "Orders" ∧
    qualified_name "Sales" "dbo2" "Orders" = "dbo2.Orders" := by
  refine ⟨?_, ?_, ?_⟩
  · intro db ns tbl
    by_cases h : ns = db <;> simp [qualified_name, h]
  · simp [qualified_name]
  · simp [qualified_name]

/-- C3: if the discovery query reports any error (returns a non-None
error value), `run_query` raises `Exception("Failed retrieving
datasources.")` and returns no result, no target is ever queried, and
the fan-out loop is never entered (nothing is caught or logged). -/
theorem discovery_error_aborts (env : Env) (jd : Option ResultSet) (msg : String)
    (h : (run_query_on_datasource env.discovery).ret = .ok (jd, some msg)) :
    run_query env =
      { ret := .error (.appError "Failed retrieving datasources."),
        queried := [], caught := [] } := by
  simp [run_query, h]

/-- Environment in which the discovery query itself fails with a
driver-reported query error. -/
def envDiscoveryFail : Env :=
  { discovery := .execFail (.queryArgs 102 "Incorrect syntax near FROM."),
    target := fun _ => .success [] [] }

/-- Witness for C3. -/
theorem discovery_error_aborts_witness :
    run_query envDiscoveryFail =
      { ret := .error (.appError "Failed retrieving datasources."),
        queried := [], caught := [] } :=
  discovery_error_aborts envDiscoveryFail none "Incorrect syntax near FROM." rfl

/-- C10: when the discovery query succeeds but no in-loop target
execution ever binds the local `results` (zero discovery rows, or
every enumerated target fails before `json.loads` succeeds),
`run_query` does not return an empty result set: the post-loop
statement `results['rows'] = total_rows` raises an unhandled
`UnboundLocalError` on the never-assigned local `results`. -/
theorem no_successful_target_raises (env : Env) (dcols : List Column)
    (drows : List Row)
    (hdisc : env.discovery = .success dcols drows)
    (hall : ∀ d ∈ drows, parsedResult env d = none) :
    (run_query env).ret = .error (.unboundLocal "results") := by
  have hfm : drows.filterMap (parsedResult env) = [] :=
    List.filterMap_eq_nil_iff.mpr hall
  simp [run_query, hdisc, run_query_on_datasource, loopRun_spec, hfm,
        lastWrite, initState]

/-- Environment whose discovery query succeeds with zero target rows. -/
def envZeroTargets : Env :=
  { discovery := .success [{ name := "datasource", ctype := some .STRING }] [],
    target := fun _ => .success [] [] }

/-- Witness for C10: zero discovered targets make `run_query` raise. -/
theorem no_successful_target_raises_witness :
    (run_query envZeroTargets).ret = .error (.unboundLocal "results") :=
  no_successful_target_raises envZeroTargets
    [{ name := "datasource", ctype := some .STRING }] [] rfl
    (by intro d hd; exact absurd hd (List.not_mem_nil d))

/-- C4: the columns of the final aggregated result equal the columns of
the result set of the last target (in discovery order) whose
single-target execution produced a result set; earlier targets'
schemas are overwritten, never merged. -/
theorem last_write_wins_columns (env : Env) (dcols : List Column)
    (drows : List Row) (rsLast : ResultSet)
    (hdisc : env.discovery = .success dcols drows)
    (hlast : (drows.filterMap (parsedResult env)).getLast? = some rsLast) :
    ∃ rs err, (run_query env).ret = .ok (rs, err) ∧ rs.columns = rsLast.columns := by
  have hrun : (run_query env).ret =
      .ok ({ columns := rsLast.columns,
             rows := (drows.map (contribRows env)).flatten },
            lastAssign (drows.filterMap (returnedErr env)) none) := by
    simp [run_query, hdisc, run_query_on_datasource, loopRun_spec, lastWrite,
          hlast, initState]
  exact ⟨_, _, hrun, rfl⟩

/-- Environment with two targets of different schemas, both
succeeding; the second one's schema must win. -/
def envTwoSchemas : Env :=
  { discovery := .success [{ name := "datasource", ctype := some .STRING }]
      [[("datasource", "db1")], [("datasource", "db2")]],
    target := fun s =>
      if s = "db1" then
        .success [{ name := "a", ctype := some .STRING }] [[("a", "x")]]
      else
        .success [{ name := "b", ctype := some .FLOAT }] [[("b", "1")], [("b", "2")]] }

/-- Witness for C4: with targets db1 then db2, the reported columns are
db2's. -/
theorem last_write_wins_columns_witness :
    ∃ rs err, (run_query envTwoSchemas).ret = .ok (rs, err) ∧
      rs.columns = [{ name := "b", ctype := some SqlType.FLOAT }] :=
  last_write_wins_columns envTwoSchemas
    [{ name := "datasource", ctype := some .STRING }]
    [[("datasource", "db1")], [("datasource", "db2")]]
    { columns := [{ name := "b", ctype := some .FLOAT }],
      rows := [[("b", "1")], [("b", "2")]] }
    rfl (by decide)

theorem getLast?_isSome_of_mem {α : Type} {l : List α} {x : α} (h : x ∈ l) :
    ∃ y, l.getLast? = some y := by
  cases hl : l.getLast? with
  | some y => exact ⟨y, rfl⟩
  | none =>
      rw [List.getLast?_eq_none_iff] at hl
      subst hl
      exact absurd h (List.not_mem_nil x)

/-- A discovery row whose single-target call never returns (the key is
missing or the call raises) contributes no rows to the accumulator. -/
theorem contrib_nil_of_not_returned (env : Env) (d : Row)
    (h : returnedErr env d = none) : contribRows env d = [] := by
  cases hld : d.lookup "datasource" with
  | none => simp [contribRows, hld]
  | some ds =>
      cases hex : (run_query_on_datasource (env.target ds)).ret with
      | error e => simp [contribRows, hld, hex]
      | ok pr =>
          obtain ⟨jd, err⟩ := pr
          simp [returnedErr, hld, hex] at h

theorem sum_map_filter_eq {α : Type} (p : α → Bool) (g : α → Nat) (l : List α)
    (h0 : ∀ a ∈ l, p a = false → g a = 0) :
    ((l.filter p).map g).sum = (l.map g).sum := by
  induction l with
  | nil => rfl
  | cons a t ih =>
      have iht := ih (fun b hb hpb => h0 b (List.mem_cons_of_mem a hb) hpb)
      cases hpa : p a with
      | true => simp [List.filter_cons, hpa, iht]
      | false => simp [List.filter_cons, hpa, iht, h0 a (List.mem_cons_self a t) hpa]

/-- C1: per-target failure isolation.  If the discovery row at index
`i` names a target whose single-target call raises (a fatal failure)
and a later row at index `j` names a target that succeeds, then: the
fatal target contributes no rows; its exception is among those caught
and logged by the loop (which collects one logged entry per failing
row, in order); it writes nothing to the shared error channel; and
`run_query` returns normally, with rows concatenated from per-row
contributions and with an error value that is the last value written
by the calls that returned — so never the fatal failure of T. -/
theorem per_target_isolation (env : Env) (dcols : List Column) (drows : List Row)
    (i j : Nat) (hij : i < j) (hj : j < drows.length)
    (hdisc : env.discovery = .success dcols drows)
    (dsT : String) (eT : PyExc)
    (hTds : (drows.get ⟨i, Nat.lt_trans hij hj⟩).lookup "datasource" = some dsT)
    (hTfatal : (run_query_on_datasource (env.target dsT)).ret = .error eT)
    (dsT2 : String) (cols2 : List Column) (rows2 : List Row)
    (hT2ds : (drows.get ⟨j, hj⟩).lookup "datasource" = some dsT2)
    (hT2succ : env.target dsT2 = .success cols2 rows2) :
    contribRows env (drows.get ⟨i, Nat.lt_trans hij hj⟩) = [] ∧
    caughtExc env (drows.get ⟨i, Nat.lt_trans hij hj⟩) = some eT ∧
    returnedErr env (drows.get ⟨i, Nat.lt_trans hij hj⟩) = none ∧
    ∃ rs err, (run_query env).ret = .ok (rs, err) ∧
      rs.rows = (drows.map (contribRows env)).flatten ∧
      (run_query env).caught = drows.filterMap (caughtExc env) ∧
      err = lastAssign (drows.filterMap (returnedErr env)) none := by
  have hci : contribRows env (drows.get ⟨i, Nat.lt_trans hij hj⟩) = [] := by
    simp only [contribRows, hTds, hTfatal]
  have hki : caughtExc env (drows.get ⟨i, Nat.lt_trans hij hj⟩) = some eT := by
    simp only [caughtExc, hTds, hTfatal]
  have hri : returnedErr env (drows.get ⟨i, Nat.lt_trans hij hj⟩) = none := by
    simp only [returnedErr, hTds, hTfatal]
  have hpj : parsedResult env (drows.get ⟨j, hj⟩)
      = some { columns := cols2, rows := rows2 } := by
    simp only [parsedResult, hT2ds, hT2succ, run_query_on_datasource]
  have hmem : ({ columns := cols2, rows := rows2 } : ResultSet)
      ∈ drows.filterMap (parsedResult env) :=
    List.mem_filterMap.mpr ⟨_, List.get_mem drows j hj, hpj⟩
  obtain ⟨rsLast, hlast⟩ := getLast?_isSome_of_mem hmem
  have hrunAll : run_query env =
      { ret := .ok ({ columns := rsLast.columns,
                      rows := (drows.map (contribRows env)).flatten },
                    lastAssign (drows.filterMap (returnedErr env)) none),
        queried := drows.filterMap queriedDb,
        caught := drows.filterMap (caughtExc env) } := by
    simp [run_query, hdisc, run_query_on_datasource, loopRun_spec, lastWrite,
          hlast, initState]
  exact ⟨hci, hki, hri, _, _, by rw [hrunAll], rfl, by rw [hrunAll], rfl⟩

/-- C2: for a non-empty target list (with at least one target whose
execution produced a result set, without which `run_query` produces
no aggregated result at all), the final row list is the concatenation,
in discovery order, of the per-row contributions, and its length is the
sum of the row counts of exactly the rows whose single-target call
returned (did not fatally fail); fatally failing rows contribute
nothing. -/
theorem aggregated_row_count (env : Env) (dcols : List Column) (drows : List Row)
    (rsLast : ResultSet)
    (hne : drows ≠ [])
    (hdisc : env.discovery = .success dcols drows)
    (hlast : (drows.filterMap (parsedResult env)).getLast? = some rsLast) :
    ∃ rs err, (run_query env).ret = .ok (rs, err) ∧
      rs.rows = (drows.map (contribRows env)).flatten ∧
      rs.rows.length =
        ((drows.filter (fun d => (returnedErr env d).isSome)).map
          (fun d => (contribRows env d).length)).sum := by
  have hrun : (run_query env).ret =
      .ok ({ columns := rsLast.columns,
             rows := (drows.map (contribRows env)).flatten },
            lastAssign (drows.filterMap (returnedErr env)) none) := by
    simp [run_query, hdisc, run_query_on_datasource, loopRun_spec, lastWrite,
          hlast, initState]
  refine ⟨_, _, hrun, rfl, ?_⟩
  have h0 : ∀ d ∈ drows, (fun d => (returnedErr env d).isSome) d = false →
      (fun d => (contribRows env d).length) d = 0 := by
    intro d _ hd
    have hdn : returnedErr env d = none := by
      cases hrd : returnedErr env d with
      | none => rfl
      | some e => simp [hrd] at hd
    simp [contrib_nil_of_not_returned env d hdn]
  calc ((drows.map (contribRows env)).flatten).length
      = ((drows.map (contribRows env)).map List.length).sum := by
        rw [List.length_flatten]
    _ = (drows.map (fun d => (contribRows env d).length)).sum := by
        rw [List.map_map]; rfl
    _ = ((drows.filter (fun d => (returnedErr env d).isSome)).map
          (fun d => (contribRows env d).length)).sum :=
        (sum_map_filter_eq _ _ drows h0).symm

/-- C9: schema introspection is deterministic, hence idempotent: two
runs of `_get_tables` over equal sequences of introspection rows (an
unchanged database) yield identical table-entry mappings, and in
particular every entry of one run has a counterpart in the other with
the same name and the same column list, in the same order.  The
embedding is pure, reflecting that `_get_tables` reads no mutable state
besides the fresh dictionary it is handed on each invocation. -/
theorem describe_schema_idempotent (db : String) (rowsA rowsB : List IntroRow)
    (h : rowsB = rowsA) :
    get_tables db rowsB = get_tables db rowsA ∧
    ∀ e ∈ get_tables db rowsB, ∃ e2 ∈ get_tables db rowsA,
      e2.name = e.name ∧ e2.columns = e.columns := by
  subst h
  exact ⟨rfl, fun e he => ⟨e, he, rfl, rfl⟩⟩

/-- Environment for the C1 witness: target `bad` fails to connect (its
call raises), the later target `good` succeeds with one row. -/
def envIsolation : Env :=
  { discovery := .success [{ name := "datasource", ctype := some .STRING }]
      [[("datasource", "bad")], [("datasource", "good")]],
    target := fun s =>
      if s = "bad" then .connectFail (.connArgs 20009 "server down")
      else .success [{ name := "a", ctype := some .STRING }] [[("a", "1")]] }

/-- Witness for C1. -/
theorem per_target_isolation_witness :
    contribRows envIsolation [("datasource", "bad")] = [] ∧
    caughtExc envIsolation [("datasource", "bad")]
      = some (PyExc.unboundLocal "connection") ∧
    returnedErr envIsolation [("datasource", "bad")] = none ∧
    ∃ rs err, (run_query envIsolation).ret = .ok (rs, err) ∧
      rs.rows = ([[("datasource", "bad")], [("datasource", "good")]].map
        (contribRows envIsolation)).flatten ∧
      (run_query envIsolation).caught
        = [[("datasource", "bad")], [("datasource", "good")]].filterMap
            (caughtExc envIsolation) ∧
      err = lastAssign
        ([[("datasource", "bad")], [("datasource", "good")]].filterMap
          (returnedErr envIsolation)) none :=
  per_target_isolation envIsolation
    [{ name := "datasource", ctype := some .STRING }]
    [[("datasource", "bad")], [("datasource", "good")]]
    0 1 (by decide) (by decide) rfl
    "bad" (.unboundLocal "connection") (by decide) (by decide)
    "good" [{ name := "a", ctype := some .STRING }] [[("a", "1")]]
    (by decide) (by decide)

/-- Environment for the C2 witness: db1 succeeds with two rows, db2
returns a soft query error (no result payload), db3 fails to connect
(its call raises). -/
def envRowCount : Env :=
  { discovery := .success [{ name := "datasource", ctype := some .STRING }]
      [[("datasource", "db1")], [("datasource", "db2")], [("datasource", "db3")]],
    target := fun s =>
      if s = "db1" then
        .success [{ name := "a", ctype := some .STRING }] [[("a", "1")], [("a", "2")]]
      else if s = "db2" then .execFail (.queryArgs 208 "Invalid object name.")
      else .connectFail (.connArgs 20009 "server down") }

/-- Witness for C2. -/
theorem aggregated_row_count_witness :
    ∃ rs err, (run_query envRowCount).ret = .ok (rs, err) ∧
      rs.rows = ([[("datasource", "db1")], [("datasource", "db2")],
          [("datasource", "db3")]].map (contribRows envRowCount)).flatten ∧
      rs.rows.length =
        (([[("datasource", "db1")], [("datasource", "db2")],
            [("datasource", "db3")]].filter
              (fun d => (returnedErr envRowCount d).isSome)).map
          (fun d => (contribRows envRowCount d).length)).sum :=
  aggregated_row_count envRowCount
    [{ name := "datasource", ctype := some .STRING }]
    [[("datasource", "db1")], [("datasource", "db2")], [("datasource", "db3")]]
    { columns := [{ name := "a", ctype := some .STRING }],
      rows := [[("a", "1")], [("a", "2")]] }
    (by decide) rfl (by decide)

/-- Witness for C9. -/
theorem describe_schema_idempotent_witness :
    get_tables "Sales"
        [{ table_schema := "Sales", table_name := "Orders", column_name := "id" },
         { table_schema := "Sales", table_name := "Orders", column_name := "total" },
         { table_schema := "dbo2", table_name := "Orders", column_name := "id" }]
      = get_tables "Sales"
        [{ table_schema := "Sales", table_name := "Orders", column_name := "id" },
         { table_schema := "Sales", table_name := "Orders", column_name := "total" },
         { table_schema := "dbo2", table_name := "Orders", column_name := "id" }] ∧
    ∀ e ∈ get_tables "Sales"
        [{ table_schema := "Sales", table_name := "Orders", column_name := "id" },
         { table_schema := "Sales", table_name := "Orders", column_name := "total" },
         { table_schema := "dbo2", table_name := "Orders", column_name := "id" }],
      ∃ e2 ∈ get_tables "Sales"
        [{ table_schema := "Sales", table_name := "Orders", column_name := "id" },
         { table_schema := "Sales", table_name := "Orders", column_name := "total" },
         { table_schema := "dbo2", table_name := "Orders", column_name := "id" }],
        e2.name = e.name ∧ e2.columns = e.columns :=
  describe_schema_idempotent "Sales"
    [{ table_schema := "Sales", table_name := "Orders", column_name := "id" },
     { table_schema := "Sales", table_name := "Orders", column_name := "total" },
     { table_schema := "dbo2", table_name := "Orders", column_name := "id" }]
    [{ table_schema := "Sales", table_name := "Orders", column_name := "id" },
     { table_schema := "Sales", table_name := "Orders", column_name := "total" },
     { table_schema := "dbo2", table_name := "Orders", column_name := "id" }]
    rfl

end MssqlAllDatasources
